import Mathlib

/-!
# Verification of the kqueue `Selector` backend of mio-st

A shallow embedding of `src/sys/unix/kqueue.rs`. Syscalls are modelled as
explicit parameters: the `kevent(2)` call either fails with an errno or
returns a list of `kevent` structures (receipts for a change submission,
ready events for a wait). All numeric constants follow the FreeBSD libc
values (the first `cfg` target of the source file); machine integers are
`Nat`/`Int`, with casts made explicit where the source casts.

Types that the source imports from `crate::event`, `crate::os` and
`crate::sys` (`Ready`, `Event`, `Capacity`, `Interests`, `RegisterOption`,
`EVENTS_CAP`) are not part of the source tree; they are modelled from the
specification, and each such definition is marked `Modelled from the spec`.
-/

namespace MioSt

/-! ## libc constants (FreeBSD values) -/

/-- `libc::EVFILT_READ` (`kevent_filter_t`, a signed short on FreeBSD). -/
def EVFILT_READ : Int := -1
/-- `libc::EVFILT_WRITE`. -/
def EVFILT_WRITE : Int := -2
/-- `libc::EVFILT_USER`. -/
def EVFILT_USER : Int := -11

/-- `libc::EV_ADD` (`kevent_flags_t`, an unsigned short on FreeBSD). -/
def EV_ADD : Nat := 0x0001
/-- `libc::EV_DELETE`. -/
def EV_DELETE : Nat := 0x0002
/-- `libc::EV_ONESHOT`. -/
def EV_ONESHOT : Nat := 0x0010
/-- `libc::EV_CLEAR`. -/
def EV_CLEAR : Nat := 0x0020
/-- `libc::EV_RECEIPT`. -/
def EV_RECEIPT : Nat := 0x0040
/-- `libc::EV_ERROR`. -/
def EV_ERROR : Nat := 0x4000
/-- `libc::EV_EOF`. -/
def EV_EOF : Nat := 0x8000

/-- `libc::NOTE_TRIGGER` (an `fflags` value). -/
def NOTE_TRIGGER : Nat := 0x01000000

/-- `libc::ENOENT` as a `kevent_data_t` value. -/
def ENOENT : Int := 2
/-- `libc::EINTR` as a raw OS error value. -/
def EINTR : Int := 4

/-! ## Data model -/

/-- The `libc::kevent` structure. `ident` is a `uintptr_t`, `filter` a signed
short, `flags`/`fflags` unsigned, `data` a signed `intptr_t`, and `udata` a
pointer-sized word (the source stores an `event::Id`, i.e. a `usize`, there). -/
structure Kevent where
  ident : Nat
  filter : Int
  flags : Nat
  fflags : Nat
  data : Int
  udata : Nat
  deriving Repr, DecidableEq

/-- Modelled from the spec: `Ready` is the "bitset `{READABLE=1, WRITABLE=2,
ERROR=4, HUP=8, TIMER=16}`" (`crate::event::Ready`, not in the source tree).
Represented as the underlying bit word. -/
def Ready.EMPTY : Nat := 0

/-- Modelled from the spec: the `READABLE` bit of `Ready`. -/
def Ready.READABLE : Nat := 1

/-- Modelled from the spec: the `WRITABLE` bit of `Ready`. -/
def Ready.WRITABLE : Nat := 2

/-- Modelled from the spec: the `ERROR` bit of `Ready`. -/
def Ready.ERROR : Nat := 4

/-- Modelled from the spec: the `HUP` bit of `Ready`. -/
def Ready.HUP : Nat := 8

/-- Modelled from the spec: the `TIMER` bit of `Ready`. -/
def Ready.TIMER : Nat := 16

/-- Modelled from the spec: "`Event { id, readiness }`"
(`crate::event::Event`, not in the source tree). The event id is the
caller-chosen pointer-sized unsigned integer `event::Id`. -/
structure Event where
  id : Nat
  readiness : Nat
  deriving Repr, DecidableEq

/-- `Event::new(id, readiness)`. -/
def Event.new (id : Nat) (readiness : Nat) : Event :=
  { id := id, readiness := readiness }

/-- Modelled from the spec: "a sink exposes `capacity_left() ->
Capacity::{Limited(n), Growable}`" (`crate::event::Capacity`, not in the
source tree). -/
inductive Capacity where
  | Limited (n : Nat)
  | Growable
  deriving Repr, DecidableEq

/-- Modelled from the spec: the combination of a sink's `capacity_left` with
the per-call cap used by `Selector::select` ("the core never pushes beyond
`capacity_left`; `Growable` sinks always accept", and the cap is at most the
requested maximum). `Limited n` allows at most `n`, `Growable` allows the
full cap. -/
def Capacity.min (c : Capacity) (cap : Nat) : Nat :=
  match c with
  | .Limited n => Nat.min n cap
  | .Growable => cap

/-- Modelled from the spec: `crate::sys::EVENTS_CAP` (not in the source
tree), the implementation-defined per-call cap: "drains ready events into
`sink` up to an implementation-defined cap (≤ 256 per call)"; the test suite
pins it to 256. -/
def EVENTS_CAP : Nat := 256

/-- Modelled from the spec: "`Interests` — bitset `{READABLE, WRITABLE}`"
(`crate::os::Interests`, not in the source tree); the source only queries it
through `is_readable`/`is_writable`. -/
structure Interests where
  readable : Bool
  writable : Bool
  deriving Repr, DecidableEq

/-- `Interests::is_readable`. -/
def Interests.is_readable (i : Interests) : Bool := i.readable

/-- `Interests::is_writable`. -/
def Interests.is_writable (i : Interests) : Bool := i.writable

/-- Modelled from the spec: "`RegisterOption` — `EDGE | LEVEL | ONESHOT`
(mutually exclusive)" (`crate::os::RegisterOption`, not in the source tree);
the source only queries it through `is_edge`/`is_oneshot`. -/
inductive RegisterOption where
  | Edge
  | Level
  | Oneshot
  deriving Repr, DecidableEq

/-- `RegisterOption::is_edge`. -/
def RegisterOption.is_edge (o : RegisterOption) : Bool :=
  match o with
  | .Edge => true
  | _ => false

/-- `RegisterOption::is_oneshot`. -/
def RegisterOption.is_oneshot (o : RegisterOption) : Bool :=
  match o with
  | .Oneshot => true
  | _ => false

/-- `std::time::Duration`: `as_secs` is a `u64`, `subsec_nanos` a `u32`
below `10^9`. -/
structure Duration where
  secs : Nat
  nanos : Nat
  deriving Repr, DecidableEq

/-- `Duration::as_secs`. -/
def Duration.as_secs (d : Duration) : Nat := d.secs

/-- `Duration::subsec_nanos`. -/
def Duration.subsec_nanos (d : Duration) : Nat := d.nanos

/-- `libc::timespec` (`tv_sec : time_t = i64`, `tv_nsec : c_long = i64`). -/
structure Timespec where
  tv_sec : Int
  tv_nsec : Int
  deriving Repr, DecidableEq

/-- The value of `u64::MAX`. -/
def U64_MAX : Nat := 2 ^ 64 - 1

/-- The value of `libc::time_t::max_value()` (`i64::MAX`). -/
def TIME_T_MAX : Nat := 2 ^ 63 - 1

/-- The Rust `as` cast from `u64` to `i64`: values below `2^63` are kept,
larger ones wrap around. -/
def u64_as_i64 (n : Nat) : Int :=
  if n < 2 ^ 63 then (n : Int) else (n : Int) - 2 ^ 64

/-- The Rust `as` cast from `i64` to `i32`: two's-complement truncation to
32 bits. -/
def i64_as_i32 (n : Int) : Int :=
  (n + 2 ^ 31) % 2 ^ 32 - 2 ^ 31

/-- A `kevent(2)` system call either fails with an errno (`kevent` returns
`-1` and the error is read from `errno`) or succeeds with a list of returned
`kevent` structures (receipts for a change submission, ready events for a
wait). -/
inductive SyscallResult where
  | err (errno : Int)
  | ok (events : List Kevent)
  deriving Repr, DecidableEq

/-! ## Translated functions of `src/sys/unix/kqueue.rs` -/

/-- `contains_flag`: whether `flags` contains `flag` (`(flags & flag) != 0`). -/
def contains_flag (flags : Nat) (flag : Nat) : Bool :=
  (flags &&& flag) != 0

/-- `timespec_from_duration`: create a `timespec` from a duration.
`tv_sec = min(duration.as_secs(), libc::time_t::max_value() as u64) as
libc::time_t`, `tv_nsec = libc::c_long::from(duration.subsec_nanos())`. -/
def timespec_from_duration (duration : Duration) : Timespec :=
  { tv_sec := u64_as_i64 (Nat.min duration.as_secs TIME_T_MAX),
    tv_nsec := (duration.subsec_nanos : Int) }

/-- `kevent_to_event`: convert a `kevent` into an `Event`. -/
def kevent_to_event (kevent : Kevent) : Event :=
  let id := kevent.udata
  let readiness := Ready.EMPTY
  let readiness :=
    if contains_flag kevent.flags EV_ERROR then readiness ||| Ready.ERROR
    else readiness
  let readiness :=
    if contains_flag kevent.flags EV_EOF then
      let readiness := readiness ||| Ready.HUP
      if kevent.fflags != 0 then readiness ||| Ready.ERROR else readiness
    else readiness
  let readiness :=
    if kevent.filter = EVFILT_READ then readiness ||| Ready.READABLE
    else if kevent.filter = EVFILT_WRITE then readiness ||| Ready.WRITABLE
    else readiness
  let readiness :=
    if kevent.filter = EVFILT_USER then readiness ||| Ready.READABLE
    else readiness
  Event.new id readiness

/-- `opt_to_flags`: convert poll options into `kevent` flags. -/
def opt_to_flags (opt : RegisterOption) : Nat :=
  let flags := EV_RECEIPT
  let flags := if opt.is_edge then flags ||| EV_CLEAR else flags
  let flags := if opt.is_oneshot then flags ||| EV_ONESHOT else flags
  flags

/-- `new_kevent`: create a new `kevent` with zero `fflags` and `data` and
the event id stored in `udata`. -/
def new_kevent (ident : Nat) (filter : Int) (flags : Nat) (id : Nat) : Kevent :=
  { ident := ident, filter := filter, flags := flags,
    fflags := 0, data := 0, udata := id }

/-- `check_errors`: check all events for possible errors and return the
first error found (`io::Error::from_raw_os_error(data as i32)`). -/
def check_errors (events : List Kevent) (ignored_errors : List Int) :
    Except Int Unit :=
  match events with
  | [] => .ok ()
  | event :: rest =>
    let data := event.data
    if contains_flag event.flags EV_ERROR && data != 0 &&
        !(ignored_errors.contains data) then
      .error (i64_as_i32 data)
    else
      check_errors rest ignored_errors

/-- `kevent_register`: submit `changes` through one `kevent` syscall (the
syscall is the parameter `sys`, which receives the change list). A syscall
failure with `EINTR` is `Ok(())` (all changes were applied); any other
syscall failure is the error; on success the receipts are checked with
`check_errors`. -/
def kevent_register (changes : List Kevent)
    (sys : List Kevent → SyscallResult) (ignored_errors : List Int) :
    Except Int Unit :=
  match sys changes with
  | .err errno => if errno = EINTR then .ok () else .error errno
  | .ok receipts => check_errors receipts ignored_errors

namespace Selector

/-- The change list built by `Selector::register`: a write change when the
interests are writable, then a read change when they are readable, each with
flags `opt_to_flags(opt) | EV_ADD` and the id in `udata`. -/
def register_changes (fd : Nat) (id : Nat) (interests : Interests)
    (opt : RegisterOption) : List Kevent :=
  let flags := opt_to_flags opt ||| EV_ADD
  (if interests.is_writable then [new_kevent fd EVFILT_WRITE flags id] else [])
    ++ (if interests.is_readable then [new_kevent fd EVFILT_READ flags id] else [])

/-- `Selector::register`: submits `register_changes` with no ignored
receipt errors. -/
def register (fd : Nat) (id : Nat) (interests : Interests)
    (opt : RegisterOption) (sys : List Kevent → SyscallResult) :
    Except Int Unit :=
  kevent_register (register_changes fd id interests opt) sys []

/-- The change list built by `Selector::reregister`: always two changes,
`EVFILT_WRITE` then `EVFILT_READ`, each with `opt_to_flags(opt)` plus
`EV_ADD` when the corresponding interest is requested and `EV_DELETE`
otherwise. -/
def reregister_changes (fd : Nat) (id : Nat) (interests : Interests)
    (opt : RegisterOption) : List Kevent :=
  let flags := opt_to_flags opt
  let write_flags :=
    if interests.is_writable then flags ||| EV_ADD else flags ||| EV_DELETE
  let read_flags :=
    if interests.is_readable then flags ||| EV_ADD else flags ||| EV_DELETE
  [new_kevent fd EVFILT_WRITE write_flags id,
   new_kevent fd EVFILT_READ read_flags id]

/-- `Selector::reregister`: submits `reregister_changes` ignoring `ENOENT`
receipt errors. -/
def reregister (fd : Nat) (id : Nat) (interests : Interests)
    (opt : RegisterOption) (sys : List Kevent → SyscallResult) :
    Except Int Unit :=
  kevent_register (reregister_changes fd id interests opt) sys [ENOENT]

/-- The change list built by `Selector::deregister`: `EV_DELETE |
EV_RECEIPT` for both filters; the id is unused (`usize::MAX`). -/
def deregister_changes (fd : Nat) : List Kevent :=
  let flags := EV_DELETE ||| EV_RECEIPT
  [new_kevent fd EVFILT_WRITE flags U64_MAX,
   new_kevent fd EVFILT_READ flags U64_MAX]

/-- `Selector::deregister`: submits `deregister_changes` ignoring `ENOENT`
receipt errors. -/
def deregister (fd : Nat) (sys : List Kevent → SyscallResult) :
    Except Int Unit :=
  kevent_register (deregister_changes fd) sys [ENOENT]

/-- `Selector::setup_awakener`: one `EVFILT_USER` change with
`EV_ADD | EV_CLEAR | EV_RECEIPT`, no ignored receipt errors. -/
def setup_awakener (id : Nat) (sys : List Kevent → SyscallResult) :
    Except Int Unit :=
  let kevent := new_kevent 0 EVFILT_USER (EV_ADD ||| EV_CLEAR ||| EV_RECEIPT) id
  kevent_register [kevent] sys []

/-- `Selector::wake`: the `setup_awakener` change with `fflags` set to
`NOTE_TRIGGER`, no ignored receipt errors. -/
def wake (id : Nat) (sys : List Kevent → SyscallResult) : Except Int Unit :=
  let kevent := new_kevent 0 EVFILT_USER (EV_ADD ||| EV_CLEAR ||| EV_RECEIPT) id
  let kevent := { kevent with fflags := NOTE_TRIGGER }
  kevent_register [kevent] sys []

/-- `Selector::select`: computes `events_cap = capacity_left().min(EVENTS_CAP)`
and `timespec = timeout.map(timespec_from_duration)`, performs the wait
syscall (the parameter `sys` receives both), and on success extends the sink
with the returned kevents translated by `kevent_to_event` (the returned list
is the sequence of events added to the sink). A failing syscall is returned
as the error; zero returned events is `Ok` with nothing added. -/
def select (capacity_left : Capacity) (timeout : Option Duration)
    (sys : Nat → Option Timespec → SyscallResult) :
    Except Int (List Event) :=
  let events_cap := capacity_left.min EVENTS_CAP
  let timespec := timeout.map timespec_from_duration
  match sys events_cap timespec with
  | .err errno => .error errno
  | .ok kevents => .ok (kevents.map kevent_to_event)

end Selector

/-! ## Specification-worded definitions (for comparison with the code) -/

/-- The register change list as the specification words it: one change per
requested filter, each with `EV_ADD | EV_RECEIPT`, plus `EV_CLEAR` exactly
for EDGE and `EV_ONESHOT` exactly for ONESHOT, the id in `udata`. -/
def register_changes_claim (fd : Nat) (id : Nat) (interests : Interests)
    (opt : RegisterOption) : List Kevent :=
  let flags := EV_ADD ||| EV_RECEIPT
    ||| (if opt = RegisterOption.Edge then EV_CLEAR else 0)
    ||| (if opt = RegisterOption.Oneshot then EV_ONESHOT else 0)
  (if interests.is_writable then
    [{ ident := fd, filter := EVFILT_WRITE, flags := flags, fflags := 0,
       data := 0, udata := id }]
   else [])
  ++ (if interests.is_readable then
    [{ ident := fd, filter := EVFILT_READ, flags := flags, fflags := 0,
       data := 0, udata := id }]
   else [])

/-- The reregister change list as the specification words it: exactly two
changes, one per filter, each carrying `EV_ADD` when its interest is
requested and `EV_DELETE` otherwise, combined with the option flags and
`EV_RECEIPT`. -/
def reregister_changes_claim (fd : Nat) (id : Nat) (interests : Interests)
    (opt : RegisterOption) : List Kevent :=
  let option_flags := EV_RECEIPT
    ||| (if opt = RegisterOption.Edge then EV_CLEAR else 0)
    ||| (if opt = RegisterOption.Oneshot then EV_ONESHOT else 0)
  [{ ident := fd, filter := EVFILT_WRITE,
     flags := option_flags
       ||| (if interests.is_writable then EV_ADD else EV_DELETE),
     fflags := 0, data := 0, udata := id },
   { ident := fd, filter := EVFILT_READ,
     flags := option_flags
       ||| (if interests.is_readable then EV_ADD else EV_DELETE),
     fflags := 0, data := 0, udata := id }]

/-- The receipt-scan result as the specification words it: the `data` field
of the first receipt whose `data` is non-zero and not in the ignored set,
if any. -/
def first_receipt_error (receipts : List Kevent) (ignored_errors : List Int) :
    Option Int :=
  (receipts.find? (fun k => k.data != 0 && !(ignored_errors.contains k.data))).map
    (fun k => k.data)

/-- The readiness of a translated event as the claim words it: the union of
`READABLE` for `EVFILT_READ`, `WRITABLE` for `EVFILT_WRITE`, `READABLE` for
`EVFILT_USER`, `ERROR` for `EV_ERROR` **with non-zero `data`**, `HUP` for
`EV_EOF`, and `ERROR` for `EV_EOF` with non-zero `fflags`. -/
def kevent_readiness_claim (kevent : Kevent) : Nat :=
  (if kevent.filter = EVFILT_READ then Ready.READABLE else 0)
  ||| (if kevent.filter = EVFILT_WRITE then Ready.WRITABLE else 0)
  ||| (if kevent.filter = EVFILT_USER then Ready.READABLE else 0)
  ||| (if contains_flag kevent.flags EV_ERROR && kevent.data != 0
       then Ready.ERROR else 0)
  ||| (if contains_flag kevent.flags EV_EOF then Ready.HUP else 0)
  ||| (if contains_flag kevent.flags EV_EOF && kevent.fflags != 0
       then Ready.ERROR else 0)

/-- The readiness of a translated event as the code computes it, phrased as
a union: like `kevent_readiness_claim` except that `EV_ERROR` contributes
`ERROR` regardless of the `data` field. -/
def kevent_readiness_amended (kevent : Kevent) : Nat :=
  (if kevent.filter = EVFILT_READ then Ready.READABLE else 0)
  ||| (if kevent.filter = EVFILT_WRITE then Ready.WRITABLE else 0)
  ||| (if kevent.filter = EVFILT_USER then Ready.READABLE else 0)
  ||| (if contains_flag kevent.flags EV_ERROR then Ready.ERROR else 0)
  ||| (if contains_flag kevent.flags EV_EOF then Ready.HUP else 0)
  ||| (if contains_flag kevent.flags EV_EOF && kevent.fflags != 0
       then Ready.ERROR else 0)

/-! ## Helper lemmas -/

/-- `check_errors` succeeds exactly when no receipt has the `EV_ERROR` flag
together with a non-zero, non-ignored `data`. -/
lemma check_errors_ok_iff (events : List Kevent) (ignored_errors : List Int) :
    check_errors events ignored_errors = .ok () ↔
      ∀ k ∈ events, (contains_flag k.flags EV_ERROR && k.data != 0 &&
        !(ignored_errors.contains k.data)) = false := by
  induction events with
  | nil => simp [check_errors]
  | cons k rest ih =>
    have hunfold : check_errors (k :: rest) ignored_errors =
        if (contains_flag k.flags EV_ERROR && k.data != 0 &&
            !(ignored_errors.contains k.data)) = true then
          .error (i64_as_i32 k.data)
        else check_errors rest ignored_errors := rfl
    cases hpred : (contains_flag k.flags EV_ERROR && k.data != 0 &&
        !(ignored_errors.contains k.data)) with
    | true =>
      rw [hunfold, if_pos hpred]
      constructor
      · intro hc
        simp at hc
      · intro hall
        have hk := hall k (List.mem_cons_self k rest)
        rw [hpred] at hk
        cases hk
    | false =>
      rw [hunfold, if_neg (by rw [hpred]; exact Bool.false_ne_true), ih]
      constructor
      · intro hall
        exact List.forall_mem_cons.2 ⟨hpred, hall⟩
      · intro hall
        exact fun a ha => hall a (List.mem_cons_of_mem k ha)

/-- On a list of receipts (every entry carries `EV_ERROR`, as `EV_RECEIPT`
guarantees), `check_errors` succeeds exactly when every `data` is zero or
ignored. -/
lemma receipt_scan_ok_iff (receipts : List Kevent) (ignored_errors : List Int)
    (hrec : ∀ k ∈ receipts, contains_flag k.flags EV_ERROR = true) :
    check_errors receipts ignored_errors = .ok () ↔
      ∀ k ∈ receipts, k.data = 0 ∨ k.data ∈ ignored_errors := by
  rw [check_errors_ok_iff]
  constructor
  · intro hall k hk
    have h := hall k hk
    rw [hrec k hk, Bool.true_and] at h
    by_cases h0 : k.data = 0
    · exact Or.inl h0
    · right
      by_contra h3
      have hb : (k.data != 0) = true := by simpa using h0
      have hc : (ignored_errors.contains k.data) = false := by simp [h3]
      rw [hb, hc] at h
      cases h
  · intro hall k hk
    have h := hall k hk
    rw [hrec k hk, Bool.true_and]
    rcases h with h0 | hmem
    · simp [h0]
    · simp [hmem]

/-- On a list of receipts (every entry carries `EV_ERROR`), `check_errors`
returns exactly the error built from the first non-zero non-ignored `data`,
and succeeds when there is none. -/
lemma check_errors_eq_first_receipt_error (receipts : List Kevent)
    (ignored_errors : List Int)
    (hrec : ∀ k ∈ receipts, contains_flag k.flags EV_ERROR = true) :
    check_errors receipts ignored_errors =
      match first_receipt_error receipts ignored_errors with
      | some d => .error (i64_as_i32 d)
      | none => .ok () := by
  induction receipts with
  | nil => rfl
  | cons k rest ih =>
    have hk := hrec k (List.mem_cons_self k rest)
    have hrest : ∀ a ∈ rest, contains_flag a.flags EV_ERROR = true :=
      fun a ha => hrec a (List.mem_cons_of_mem k ha)
    have hunfold : check_errors (k :: rest) ignored_errors =
        if (contains_flag k.flags EV_ERROR && k.data != 0 &&
            !(ignored_errors.contains k.data)) = true then
          .error (i64_as_i32 k.data)
        else check_errors rest ignored_errors := rfl
    rw [hunfold, hk]
    simp only [Bool.true_and]
    cases hpred : (k.data != 0 && !(ignored_errors.contains k.data)) with
    | true =>
      rw [if_pos rfl]
      have hpred' : (k.data != 0 && !decide (k.data ∈ ignored_errors)) = true := by
        simpa using hpred
      simp [first_receipt_error, List.find?_cons, hpred']
    | false =>
      rw [if_neg (by simp), ih hrest]
      have hpred' : (k.data != 0 && !decide (k.data ∈ ignored_errors)) = false := by
        simpa using hpred
      simp [first_receipt_error, List.find?_cons, hpred']

/-! ## Claim theorems -/

/-- C1 (counterexample): contrary to the claim, when the `kevent` syscall
inside `Selector::select` fails with `EINTR`, `select` does not return
`Ok(())` with zero events — at the concrete input (a `Growable` sink, no
timeout, a syscall failing with `EINTR`) it returns that very error. -/
theorem select_eintr_cex :
    Selector.select Capacity.Growable none (fun _ _ => .err EINTR) =
        .error EINTR ∧
      Selector.select Capacity.Growable none (fun _ _ => .err EINTR) ≠
        .ok ([] : List Event) :=
  ⟨rfl, fun h => Except.noConfusion h⟩

/-- C1 (amended): for every sink capacity and every timeout, when the
`kevent` syscall made inside `Selector::select` fails — with `EINTR` or any
other errno — `select` returns that error to the caller and adds no events
to the sink; the interrupt is surfaced, not absorbed (only the change
submission path `kevent_register` absorbs `EINTR`). -/
theorem select_syscall_error_surfaces (cap : Capacity)
    (timeout : Option Duration) (sys : Nat → Option Timespec → SyscallResult)
    (e : Int)
    (hsys : sys (cap.min EVENTS_CAP) (timeout.map timespec_from_duration) =
      .err e) :
    Selector.select cap timeout sys = .error e := by
  simp only [Selector.select, hsys]

/-- Witness for C1 (amended) at a concrete input. -/
theorem select_syscall_error_surfaces_witness :
    Selector.select Capacity.Growable none (fun _ _ => .err 4) = .error 4 :=
  select_syscall_error_surfaces Capacity.Growable none (fun _ _ => .err 4) 4
    rfl

/-- C2: assuming the kernel contract that `kevent` returns at most the
requested number of events, one call to `Selector::select` adds at most
`min(capacity_left(), EVENTS_CAP)` events to the sink; for a
`Limited k` sink at most `k` events are added, and the cap of 256 events
per call is never exceeded, even for a `Growable` sink. -/
theorem select_respects_capacity (cap : Capacity) (timeout : Option Duration)
    (sys : Nat → Option Timespec → SyscallResult)
    (hsys : ∀ n ts evs, sys n ts = .ok evs → evs.length ≤ n)
    (added : List Event)
    (hsel : Selector.select cap timeout sys = .ok added) :
    added.length ≤ cap.min EVENTS_CAP ∧ added.length ≤ 256 ∧
      ∀ k, cap = Capacity.Limited k → added.length ≤ k := by
  simp only [Selector.select] at hsel
  cases hres : sys (cap.min EVENTS_CAP) (timeout.map timespec_from_duration) with
  | err e =>
    rw [hres] at hsel
    cases hsel
  | ok kevents =>
    rw [hres] at hsel
    have hadded : added = kevents.map kevent_to_event := by
      injection hsel with h
      exact h.symm
    have hlen : added.length ≤ cap.min EVENTS_CAP := by
      rw [hadded, List.length_map]
      exact hsys _ _ _ hres
    refine ⟨hlen, ?_, ?_⟩
    · refine le_trans hlen ?_
      cases cap with
      | Limited n => exact Nat.min_le_right n EVENTS_CAP
      | Growable => exact le_refl EVENTS_CAP
    · intro k hk
      subst hk
      exact le_trans hlen (Nat.min_le_left k EVENTS_CAP)

/-- Witness for C2 at a concrete input. -/
theorem select_respects_capacity_witness :
    ([] : List Event).length ≤ (Capacity.Limited 1).min EVENTS_CAP ∧
      ([] : List Event).length ≤ 256 ∧
      ∀ k, Capacity.Limited 1 = Capacity.Limited k →
        ([] : List Event).length ≤ k :=
  select_respects_capacity (Capacity.Limited 1) none (fun _ _ => .ok [])
    (fun n _ evs h => by cases h; simp) [] rfl

/-- C3: on any list of receipts (each carrying `EV_ERROR`, as `EV_RECEIPT`
guarantees), `register` succeeds exactly when every receipt's `data` is
zero — no receipt error is ignored — while `reregister` and `deregister`
succeed exactly when every receipt's `data` is zero or `ENOENT`; hence
deregistering a descriptor whose filters were never added (all receipts
`ENOENT`) returns `Ok(())`, while a failing register always returns the
error. -/
theorem ignored_receipt_error_sets (fd id : Nat) (interests : Interests)
    (opt : RegisterOption) (receipts : List Kevent)
    (hrec : ∀ k ∈ receipts, contains_flag k.flags EV_ERROR = true) :
    (Selector.register fd id interests opt (fun _ => .ok receipts) = .ok ()
        ↔ ∀ k ∈ receipts, k.data = 0) ∧
      (Selector.reregister fd id interests opt (fun _ => .ok receipts) = .ok ()
        ↔ ∀ k ∈ receipts, k.data = 0 ∨ k.data = ENOENT) ∧
      (Selector.deregister fd (fun _ => .ok receipts) = .ok ()
        ↔ ∀ k ∈ receipts, k.data = 0 ∨ k.data = ENOENT) := by
  have hreg : Selector.register fd id interests opt (fun _ => .ok receipts) =
      check_errors receipts [] := rfl
  have hrereg :
      Selector.reregister fd id interests opt (fun _ => .ok receipts) =
        check_errors receipts [ENOENT] := rfl
  have hdereg : Selector.deregister fd (fun _ => .ok receipts) =
      check_errors receipts [ENOENT] := rfl
  refine ⟨?_, ?_, ?_⟩
  · rw [hreg, receipt_scan_ok_iff receipts [] hrec]
    simp
  · rw [hrereg, receipt_scan_ok_iff receipts [ENOENT] hrec]
    simp
  · rw [hdereg, receipt_scan_ok_iff receipts [ENOENT] hrec]
    simp

/-- Witness for C3 at a concrete input (two `ENOENT` receipts, as a
deregister of a never-registered descriptor produces). -/
theorem ignored_receipt_error_sets_witness :
    (Selector.register 3 7 { readable := true, writable := true }
        RegisterOption.Level
        (fun _ => .ok
          [{ ident := 3, filter := EVFILT_WRITE, flags := EV_ERROR,
             fflags := 0, data := ENOENT, udata := 0 },
           { ident := 3, filter := EVFILT_READ, flags := EV_ERROR,
             fflags := 0, data := ENOENT, udata := 0 }]) = .ok ()
        ↔ ∀ k ∈
          [{ ident := 3, filter := EVFILT_WRITE, flags := EV_ERROR,
             fflags := 0, data := ENOENT, udata := 0 },
           { ident := 3, filter := EVFILT_READ, flags := EV_ERROR,
             fflags := 0, data := ENOENT, udata := 0 }], Kevent.data k = 0) ∧
      (Selector.reregister 3 7 { readable := true, writable := true }
        RegisterOption.Level
        (fun _ => .ok
          [{ ident := 3, filter := EVFILT_WRITE, flags := EV_ERROR,
             fflags := 0, data := ENOENT, udata := 0 },
           { ident := 3, filter := EVFILT_READ, flags := EV_ERROR,
             fflags := 0, data := ENOENT, udata := 0 }]) = .ok ()
        ↔ ∀ k ∈
          [{ ident := 3, filter := EVFILT_WRITE, flags := EV_ERROR,
             fflags := 0, data := ENOENT, udata := 0 },
           { ident := 3, filter := EVFILT_READ, flags := EV_ERROR,
             fflags := 0, data := ENOENT, udata := 0 }],
          Kevent.data k = 0 ∨ Kevent.data k = ENOENT) ∧
      (Selector.deregister 3
        (fun _ => .ok
          [{ ident := 3, filter := EVFILT_WRITE, flags := EV_ERROR,
             fflags := 0, data := ENOENT, udata := 0 },
           { ident := 3, filter := EVFILT_READ, flags := EV_ERROR,
             fflags := 0, data := ENOENT, udata := 0 }]) = .ok ()
        ↔ ∀ k ∈
          [{ ident := 3, filter := EVFILT_WRITE, flags := EV_ERROR,
             fflags := 0, data := ENOENT, udata := 0 },
           { ident := 3, filter := EVFILT_READ, flags := EV_ERROR,
             fflags := 0, data := ENOENT, udata := 0 }],
          Kevent.data k = 0 ∨ Kevent.data k = ENOENT) :=
  ignored_receipt_error_sets 3 7 { readable := true, writable := true }
    RegisterOption.Level _ (by decide)

/-- C4: for every fd, id, interests and option, `Selector::register` submits
exactly one kevent change per requested interest — an `EVFILT_WRITE` change
iff the interests are writable and an `EVFILT_READ` change iff they are
readable — each with flags `EV_ADD | EV_RECEIPT`, plus `EV_CLEAR` exactly
when the option is EDGE and `EV_ONESHOT` exactly when it is ONESHOT (and no
extra flag for LEVEL), with the id carried in `udata`: the submitted change
list equals `register_changes_claim`, the list built from that
description. -/
theorem register_changes_as_specified (fd id : Nat) (interests : Interests)
    (opt : RegisterOption) (sys : List Kevent → SyscallResult) :
    Selector.register_changes fd id interests opt =
        register_changes_claim fd id interests opt ∧
      Selector.register fd id interests opt sys =
        kevent_register (register_changes_claim fd id interests opt) sys [] := by
  have h : Selector.register_changes fd id interests opt =
      register_changes_claim fd id interests opt := by
    rcases interests with ⟨r, w⟩
    cases opt <;> cases r <;> cases w <;> rfl
  exact ⟨h, by unfold Selector.register; rw [h]⟩

/-- C5: for every fd, id, interests and option, `Selector::reregister`
always submits exactly two kevent changes — one for `EVFILT_WRITE` and one
for `EVFILT_READ` — where each requested filter carries `EV_ADD` and each
un-requested filter carries `EV_DELETE`, combined with the option flags and
`EV_RECEIPT` (the submitted list equals `reregister_changes_claim`, the
list built from that description); `ENOENT` receipts are ignored, so a
reregister whose receipts carry only zero or `ENOENT` succeeds. -/
theorem reregister_changes_as_specified (fd id : Nat) (interests : Interests)
    (opt : RegisterOption) (receipts : List Kevent)
    (hrec : ∀ k ∈ receipts, contains_flag k.flags EV_ERROR = true ∧
      (k.data = 0 ∨ k.data = ENOENT)) :
    Selector.reregister_changes fd id interests opt =
        reregister_changes_claim fd id interests opt ∧
      (Selector.reregister_changes fd id interests opt).length = 2 ∧
      Selector.reregister fd id interests opt (fun _ => .ok receipts) =
        .ok () := by
  refine ⟨?_, rfl, ?_⟩
  · rcases interests with ⟨r, w⟩
    cases opt <;> cases r <;> cases w <;> rfl
  · have hr : Selector.reregister fd id interests opt (fun _ => .ok receipts) =
        check_errors receipts [ENOENT] := rfl
    rw [hr, receipt_scan_ok_iff receipts [ENOENT] (fun k hk => (hrec k hk).1)]
    intro k hk
    rcases (hrec k hk).2 with h0 | he
    · exact Or.inl h0
    · exact Or.inr (by simp [he])

/-- Witness for C5 at a concrete input (one requested filter, `ENOENT`
receipts). -/
theorem reregister_changes_as_specified_witness :
    Selector.reregister_changes 5 9 { readable := false, writable := true }
        RegisterOption.Oneshot =
      reregister_changes_claim 5 9 { readable := false, writable := true }
        RegisterOption.Oneshot ∧
      (Selector.reregister_changes 5 9 { readable := false, writable := true }
        RegisterOption.Oneshot).length = 2 ∧
      Selector.reregister 5 9 { readable := false, writable := true }
        RegisterOption.Oneshot
        (fun _ => .ok
          [{ ident := 5, filter := EVFILT_WRITE, flags := EV_ERROR,
             fflags := 0, data := 0, udata := 9 },
           { ident := 5, filter := EVFILT_READ, flags := EV_ERROR,
             fflags := 0, data := ENOENT, udata := 9 }]) = .ok () :=
  reregister_changes_as_specified 5 9 { readable := false, writable := true }
    RegisterOption.Oneshot _ (by decide)

/-- C6: when the `kevent` syscall submitting a change list succeeds and
returns receipts (each carrying `EV_ERROR`, as `EV_RECEIPT` guarantees),
`kevent_register` scans them in submission order and returns the error
constructed from the `data` field of the first receipt whose `data` is
non-zero and not in the ignored set; if no such receipt exists it returns
`Ok(())`. -/
theorem kevent_register_receipt_scan (changes receipts : List Kevent)
    (ignored_errors : List Int) (sys : List Kevent → SyscallResult)
    (hsys : sys changes = .ok receipts)
    (hrec : ∀ k ∈ receipts, contains_flag k.flags EV_ERROR = true) :
    kevent_register changes sys ignored_errors =
      match first_receipt_error receipts ignored_errors with
      | some d => .error (i64_as_i32 d)
      | none => .ok () := by
  unfold kevent_register
  rw [hsys]
  exact check_errors_eq_first_receipt_error receipts ignored_errors hrec

/-- Witness for C6 at a concrete input (second receipt carries the first
non-ignored non-zero `data`). -/
theorem kevent_register_receipt_scan_witness :
    kevent_register []
        (fun _ => .ok
          [{ ident := 1, filter := EVFILT_WRITE, flags := EV_ERROR,
             fflags := 0, data := 0, udata := 5 },
           { ident := 1, filter := EVFILT_READ, flags := EV_ERROR,
             fflags := 0, data := 9, udata := 5 }]) [] =
      match first_receipt_error
          [{ ident := 1, filter := EVFILT_WRITE, flags := EV_ERROR,
             fflags := 0, data := 0, udata := 5 },
           { ident := 1, filter := EVFILT_READ, flags := EV_ERROR,
             fflags := 0, data := 9, udata := 5 }] [] with
      | some d => .error (i64_as_i32 d)
      | none => .ok () :=
  kevent_register_receipt_scan []
    [{ ident := 1, filter := EVFILT_WRITE, flags := EV_ERROR,
       fflags := 0, data := 0, udata := 5 },
     { ident := 1, filter := EVFILT_READ, flags := EV_ERROR,
       fflags := 0, data := 9, udata := 5 }] []
    (fun _ => .ok
      [{ ident := 1, filter := EVFILT_WRITE, flags := EV_ERROR,
         fflags := 0, data := 0, udata := 5 },
       { ident := 1, filter := EVFILT_READ, flags := EV_ERROR,
         fflags := 0, data := 9, udata := 5 }]) rfl (by decide)

/-- C7 (counterexample): contrary to the claim, `kevent_to_event` flags
`ERROR` whenever the `EV_ERROR` flag is set, even when `data` is zero: at
the concrete kevent with `EV_ERROR` set, `data = 0` and filter
`EVFILT_READ`, the code produces `READABLE | ERROR` while the claimed
union (which requires non-zero `data` for `ERROR`) is only `READABLE`. -/
theorem kevent_to_event_error_data_cex :
    (kevent_to_event
        { ident := 0, filter := EVFILT_READ, flags := EV_ERROR,
          fflags := 0, data := 0, udata := 7 }).readiness ≠
      kevent_readiness_claim
        { ident := 0, filter := EVFILT_READ, flags := EV_ERROR,
          fflags := 0, data := 0, udata := 7 } := by
  decide

/-- C7 (amended): for every kevent structure, the translated `Event`'s
readiness is exactly the union of: `READABLE` when the filter is
`EVFILT_READ`, `WRITABLE` when the filter is `EVFILT_WRITE`, `READABLE`
when the filter is `EVFILT_USER`, `ERROR` when the `EV_ERROR` flag is set
(regardless of `data`), `HUP` when the `EV_EOF` flag is set, and
additionally `ERROR` when `EV_EOF` is set with a non-zero `fflags`; no
other bits are set. -/
theorem kevent_to_event_readiness_exact (k : Kevent) :
    (kevent_to_event k).readiness = kevent_readiness_amended k := by
  unfold kevent_to_event kevent_readiness_amended Event.new
  by_cases h1 : contains_flag k.flags EV_ERROR <;>
    by_cases h2 : contains_flag k.flags EV_EOF <;>
      by_cases h3 : k.fflags = 0 <;>
        by_cases h4 : k.filter = EVFILT_READ <;>
          by_cases h5 : k.filter = EVFILT_WRITE <;>
            by_cases h6 : k.filter = EVFILT_USER <;>
              simp_all [Ready.EMPTY, Ready.READABLE, Ready.WRITABLE,
                Ready.ERROR, Ready.HUP, EVFILT_READ, EVFILT_WRITE,
                EVFILT_USER]

/-- C8: for every event id and all `ident`, `filter` and `flags` arguments,
the id stored into `udata` by `new_kevent` is recovered unchanged by
`kevent_to_event`: the round trip through the kernel representation
preserves the caller's event id. -/
theorem new_kevent_roundtrip_id (ident : Nat) (filter : Int) (flags : Nat)
    (id : Nat) :
    (kevent_to_event (new_kevent ident filter flags id)).id = id := rfl

/-- C9: for every change list and ignored-error set, when the `kevent`
syscall performed by `kevent_register` itself fails with errno `e`, the
operation returns `Ok(())` exactly when `e` is `EINTR` (the changes have
already been applied) and the error `e` otherwise — and the same holds for
each operation routed through `kevent_register`: `register`, `reregister`,
`deregister`, `setup_awakener` and `wake`. -/
theorem kevent_register_eintr_transparent (changes : List Kevent)
    (ignored_errors : List Int) (e : Int) (fd id : Nat)
    (interests : Interests) (opt : RegisterOption) :
    kevent_register changes (fun _ => .err e) ignored_errors =
        (if e = EINTR then .ok () else .error e) ∧
      Selector.register fd id interests opt (fun _ => .err e) =
        (if e = EINTR then .ok () else .error e) ∧
      Selector.reregister fd id interests opt (fun _ => .err e) =
        (if e = EINTR then .ok () else .error e) ∧
      Selector.deregister fd (fun _ => .err e) =
        (if e = EINTR then .ok () else .error e) ∧
      Selector.setup_awakener id (fun _ => .err e) =
        (if e = EINTR then .ok () else .error e) ∧
      Selector.wake id (fun _ => .err e) =
        (if e = EINTR then .ok () else .error e) :=
  ⟨rfl, rfl, rfl, rfl, rfl, rfl⟩

/-- C10: for every duration, `timespec_from_duration` returns a `timespec`
whose `tv_sec` is `min(as_secs, time_t::MAX)` and whose `tv_nsec` is
`subsec_nanos`; a timeout whose seconds exceed `time_t`'s range saturates
at `time_t::MAX` — the result never overflows or goes negative. -/
theorem timespec_from_duration_saturates (d : Duration) :
    (timespec_from_duration d).tv_sec =
        ((Nat.min d.as_secs TIME_T_MAX : Nat) : Int) ∧
      (timespec_from_duration d).tv_nsec = ((d.subsec_nanos : Nat) : Int) ∧
      0 ≤ (timespec_from_duration d).tv_sec ∧
      (timespec_from_duration d).tv_sec ≤ ((TIME_T_MAX : Nat) : Int) := by
  have hlt : Nat.min d.as_secs TIME_T_MAX < 2 ^ 63 :=
    Nat.lt_of_le_of_lt (Nat.min_le_right d.as_secs TIME_T_MAX)
      (by norm_num [TIME_T_MAX])
  have hsec : (timespec_from_duration d).tv_sec =
      ((Nat.min d.as_secs TIME_T_MAX : Nat) : Int) := by
    show u64_as_i64 (Nat.min d.as_secs TIME_T_MAX) = _
    unfold u64_as_i64
    rw [if_pos hlt]
  refine ⟨hsec, rfl, ?_, ?_⟩
  · rw [hsec]
    exact Int.natCast_nonneg _
  · rw [hsec]
    exact_mod_cast Nat.min_le_right d.as_secs TIME_T_MAX

end MioSt
